import Mathlib

/-!
Verification of the integration consumer (`python-consumers/consumer.py`).

The consumer buffers customer and inventory records arriving on two topics,
and periodically merges both buffers into a single batch that is POSTed to
an analytics API.  Time is modelled as a natural number of seconds; the
HTTP dispatch outcome is an explicit parameter (a status code, or a
request exception caught by the `except requests.exceptions.RequestException`
handler).  The functions below are direct transcriptions of the Python
methods of `IntegrationConsumer`.
-/

namespace IntegrationConsumer

/-- A JSON-like field value as stored in a record dictionary.
`Value.timestamp t` stands for the ISO-format rendering of time `t`
(`datetime.now().isoformat()`); `Value.null` is Python's `None`,
returned by `dict.get` for a missing key. -/
inductive Value where
  | null : Value
  | str : String → Value
  | int : Int → Value
  | timestamp : Nat → Value
deriving DecidableEq, Repr

/-- A record dictionary: an association list of field names to values
(Python dicts have unique keys; lookup takes the first match). -/
abbrev Record := List (String × Value)

/-- `dget r k` models Python's `r.get(k)`: the value stored at key `k`,
or `None` (`Value.null`) when the key is absent. -/
def dget : Record → String → Value
  | [], _ => Value.null
  | (k, v) :: r, key => if key = k then v else dget r key

/-- Field names of a record dictionary, in order. -/
def keysOf (r : Record) : List String := r.map Prod.fst

/-- The data keys `process_customer_record` reads from an incoming payload. -/
def customerKeys : List String := ["id", "name", "email", "status", "created_date"]

/-- The data keys `process_inventory_record` reads from an incoming payload. -/
def inventoryKeys : List String := ["id", "name", "price", "quantity", "category"]

/-- `fieldsExceptReceivedAt r` is the record `r` with its `received_at`
field removed (the fields a stored record shares with the raw payload). -/
def fieldsExceptReceivedAt (r : Record) : Record :=
  r.filter (fun p => p.1 != "received_at")

/-- The dictionary appended to `customer_records` by
`process_customer_record` (consumer.py lines 41-48): the payload's
`id`, `name`, `email`, `status`, `created_date` fields read via `.get`,
plus a `received_at` stamp taken at append time. -/
def customerEntry (now : Nat) (record : Record) : Record :=
  [("id", dget record "id"),
   ("name", dget record "name"),
   ("email", dget record "email"),
   ("status", dget record "status"),
   ("created_date", dget record "created_date"),
   ("received_at", Value.timestamp now)]

/-- The dictionary appended to `inventory_records` by
`process_inventory_record` (consumer.py lines 54-61). -/
def inventoryEntry (now : Nat) (record : Record) : Record :=
  [("id", dget record "id"),
   ("name", dget record "name"),
   ("price", dget record "price"),
   ("quantity", dget record "quantity"),
   ("category", dget record "category"),
   ("received_at", Value.timestamp now)]

/-- The mutable state of `IntegrationConsumer`: the two buffers and the
scheduler's `last_merge_time`. -/
structure ConsumerState where
  customer_records : List Record
  inventory_records : List Record
  last_merge_time : Nat
deriving DecidableEq, Repr

/-- `self.merge_interval_seconds = 60`. -/
def merge_interval_seconds : Nat := 60

/-- `IntegrationConsumer.process_customer_record`: appends the projected
customer dictionary under the lock. -/
def process_customer_record (now : Nat) (st : ConsumerState) (record : Record) :
    ConsumerState :=
  { st with customer_records := st.customer_records ++ [customerEntry now record] }

/-- `IntegrationConsumer.process_inventory_record`: appends the projected
inventory dictionary under the lock. -/
def process_inventory_record (now : Nat) (st : ConsumerState) (record : Record) :
    ConsumerState :=
  { st with inventory_records := st.inventory_records ++ [inventoryEntry now record] }

/-- The outcome of the one `requests.post` call made by
`merge_and_send_data`: an HTTP status code, or a
`requests.exceptions.RequestException` (network error / timeout) caught
by the surrounding handler. -/
inductive HttpOutcome where
  | status : Nat → HttpOutcome
  | requestError : HttpOutcome
deriving DecidableEq, Repr

/-- The `summary` object of the merged dataset. -/
structure Summary where
  total_customers : Nat
  total_products : Nat
  active_customers : Nat
deriving DecidableEq, Repr

/-- The merged dataset POSTed to `/analytics/data`. -/
structure MergedBatch where
  timestamp : Nat
  summary : Summary
  customers : List Record
  inventory : List Record
deriving DecidableEq, Repr

/-- Python's `xs[-n:]` for a list known to have more than `n` elements:
the last `n` elements. -/
def lastN (n : Nat) (l : List α) : List α := l.drop (l.length - n)

/-- Whether a customer dictionary counts as active:
`c.get('status') == 'active'`. -/
def isActive (c : Record) : Bool := dget c "status" == Value.str "active"

/-- `IntegrationConsumer.merge_and_send_data`, parameterised by the HTTP
dispatch outcome.  Returns the state after the call together with the
list of batches actually POSTed (empty when both buffers are empty,
otherwise a single batch regardless of the outcome).  On a 200 response
the buffers are cleared, keeping the last 100 entries of any buffer that
held more than 100; on any other status, or on a request exception, the
buffers are left untouched and the failure is only logged. -/
def merge_and_send_data (outcome : HttpOutcome) (now : Nat) (st : ConsumerState) :
    ConsumerState × List MergedBatch :=
  if st.customer_records = [] ∧ st.inventory_records = [] then
    (st, [])
  else
    let merged : MergedBatch :=
      { timestamp := now
        summary :=
          { total_customers := st.customer_records.length
            total_products := st.inventory_records.length
            active_customers := (st.customer_records.filter isActive).length }
        customers := st.customer_records
        inventory := st.inventory_records }
    if outcome = HttpOutcome.status 200 then
      ({ st with
          customer_records :=
            if st.customer_records.length > 100 then lastN 100 st.customer_records else []
          inventory_records :=
            if st.inventory_records.length > 100 then lastN 100 st.inventory_records else [] },
        [merged])
    else
      (st, [merged])

/-- `IntegrationConsumer.should_merge_data`:
`datetime.now() - self.last_merge_time >= timedelta(seconds=self.merge_interval_seconds)`. -/
def should_merge_data (now : Nat) (st : ConsumerState) : Bool :=
  merge_interval_seconds ≤ now - st.last_merge_time

/-- The topic configuration of `Config` (environment-derived strings). -/
structure Config where
  CUSTOMER_TOPIC : String
  INVENTORY_TOPIC : String
  ANALYTICS_API_URL : String

/-- One message pulled from the bus: its topic and deserialized value. -/
structure Message where
  topic : String
  value : Record

/-- The topic-routing part of the consumer loop body (consumer.py lines
122-126): append to the matching buffer, ignore any other topic. -/
def handle_message (cfg : Config) (now : Nat) (msg : Message) (st : ConsumerState) :
    ConsumerState :=
  if msg.topic = cfg.CUSTOMER_TOPIC then
    process_customer_record now st msg.value
  else if msg.topic = cfg.INVENTORY_TOPIC then
    process_inventory_record now st msg.value
  else
    st

/-- One iteration of `consume_messages`: route the message, then, if the
merge interval has elapsed, merge-and-send and reset `last_merge_time`. -/
def consume_step (cfg : Config) (outcome : HttpOutcome) (now : Nat) (msg : Message)
    (st : ConsumerState) : ConsumerState × List MergedBatch :=
  let st1 := handle_message cfg now msg st
  if should_merge_data now st1 then
    let r := merge_and_send_data outcome now st1
    ({ r.1 with last_merge_time := now }, r.2)
  else
    (st1, [])

/-- The unconditional flush `IntegrationConsumer.run` performs before
entering the consumer loop: a bare `merge_and_send_data()` call, with no
update of `last_merge_time`. -/
def run_startup (outcome : HttpOutcome) (now : Nat) (st : ConsumerState) :
    ConsumerState × List MergedBatch :=
  merge_and_send_data outcome now st


/-! ### Sample states used by witnesses and counterexamples -/

/-- A state holding one active customer and nothing else. -/
def oneActiveCustomer : ConsumerState :=
  { customer_records := [[("status", Value.str "active")]]
    inventory_records := []
    last_merge_time := 0 }

/-- A state holding one customer record and one inventory record. -/
def oneOfEach : ConsumerState :=
  { customer_records := [[("id", Value.int 1), ("status", Value.str "active")]]
    inventory_records := [[("id", Value.int 101)]]
    last_merge_time := 0 }

/-- A state whose customer buffer holds 105 records. -/
def state105 : ConsumerState :=
  { customer_records := List.replicate 105 [("id", Value.int 1)]
    inventory_records := []
    last_merge_time := 0 }

/-- A sample topic configuration (the config defaults). -/
def defaultConfig : Config :=
  { CUSTOMER_TOPIC := "customer_data"
    INVENTORY_TOPIC := "inventory_data"
    ANALYTICS_API_URL := "http://localhost:8080" }

/-! ### Helper lemmas -/

/-- `merge_and_send_data` never touches the scheduler field. -/
theorem merge_preserves_last_merge_time (o : HttpOutcome) (now : Nat)
    (st : ConsumerState) :
    (merge_and_send_data o now st).1.last_merge_time = st.last_merge_time := by
  unfold merge_and_send_data
  split <;> first | rfl | (split <;> rfl)


/-- At each fixed customer data key, the stored customer dictionary
holds exactly the payload's value under `.get`. -/
theorem customerEntry_dget_data (payload : Record) (now : Nat) :
    ∀ k ∈ customerKeys, dget (customerEntry now payload) k = dget payload k := by
  intro k hk
  simp [customerKeys] at hk
  rcases hk with rfl | rfl | rfl | rfl | rfl <;> simp [customerEntry, dget]

/-- At each fixed inventory data key, the stored inventory dictionary
holds exactly the payload's value under `.get`. -/
theorem inventoryEntry_dget_data (payload : Record) (now : Nat) :
    ∀ k ∈ inventoryKeys, dget (inventoryEntry now payload) k = dget payload k := by
  intro k hk
  simp [inventoryKeys] at hk
  rcases hk with rfl | rfl | rfl | rfl | rfl <;> simp [inventoryEntry, dget]

/-! ### C1 -/

/-- C1 counterexample: the claim says the retention trim is applied
independently of the HTTP dispatch outcome, so after a merge of a
one-record buffer the customer buffer should be empty even on a 500
response.  In fact on status 500 the buffer still holds the record. -/
theorem C1_trim_not_unconditional :
    (merge_and_send_data (HttpOutcome.status 500) 7 oneActiveCustomer).1.customer_records
      ≠ [] := by decide

/-- C1 (amended): the retention trim is applied only when the HTTP
dispatch returns status 200; on any other status or on a request
exception, `merge_and_send_data` returns with the whole state — both
buffers included — unchanged. -/
theorem C1_no_trim_on_failure (st : ConsumerState) (o : HttpOutcome) (now : Nat)
    (h : o ≠ HttpOutcome.status 200) :
    (merge_and_send_data o now st).1 = st := by
  unfold merge_and_send_data
  split <;> simp [h]

/-- Witness for `C1_no_trim_on_failure` at a 404 response. -/
theorem C1_no_trim_on_failure_witness :
    (merge_and_send_data (HttpOutcome.status 404) 3 oneActiveCustomer).1
      = oneActiveCustomer :=
  C1_no_trim_on_failure oneActiveCustomer (HttpOutcome.status 404) 3 (by decide)

/-! ### C2 -/

/-- C2 counterexample: the claim says the stored record's fields other
than `received_at` equal exactly the fields of the arriving payload.
For the payload `{"extra": 2}` the stored record instead has the five
fixed customer keys, all null, and no `extra` field. -/
theorem C2_not_field_for_field :
    fieldsExceptReceivedAt (customerEntry 5 [("extra", Value.int 2)])
      ≠ [("extra", Value.int 2)] := by decide

/-- C2 (amended): no field is validated, but the stored record is the
projection of the payload onto the fixed key set, not a field-for-field
copy: at each of the fixed data keys the stored value is exactly the
payload's value under `.get` (null when absent), and `received_at` is
the append-time stamp. -/
theorem C2_projection_pass_through (payload : Record) (now : Nat) :
    (∀ k ∈ customerKeys, dget (customerEntry now payload) k = dget payload k) ∧
    (∀ k ∈ inventoryKeys, dget (inventoryEntry now payload) k = dget payload k) ∧
    dget (customerEntry now payload) "received_at" = Value.timestamp now ∧
    dget (inventoryEntry now payload) "received_at" = Value.timestamp now := by
  refine ⟨customerEntry_dget_data payload now, inventoryEntry_dget_data payload now, ?_, ?_⟩
  · simp [customerEntry, dget]
  · simp [inventoryEntry, dget]

/-- Witness for `C2_projection_pass_through`: the `status` field of a
concrete payload passes through, and `received_at` is stamped. -/
theorem C2_projection_pass_through_witness :
    dget (customerEntry 5 [("status", Value.str "active")]) "status"
        = dget [("status", Value.str "active")] "status" ∧
    dget (customerEntry 5 [("status", Value.str "active")]) "received_at"
        = Value.timestamp 5 :=
  ⟨(C2_projection_pass_through [("status", Value.str "active")] 5).1 "status" (by decide),
   (C2_projection_pass_through [("status", Value.str "active")] 5).2.2.1⟩

/-! ### C3 -/

/-- C3 counterexample: as stated, the claim asks that after merge each
collection is replaced per the size rule for every buffer state, but
when the dispatch raises a request exception the one-record customer
buffer is not replaced by the empty collection. -/
theorem C3_no_trim_on_exception :
    (merge_and_send_data HttpOutcome.requestError 9 oneOfEach).1.customer_records
      ≠ [] := by decide

/-- C3 (amended): the snapshot placed in the outgoing batch always holds
the full prior contents of each collection, and when the dispatch
returns status 200 each collection is afterwards replaced by the empty
collection (prior size ≤ 100) or by the last 100 elements (prior size
> 100); on any other outcome the collections keep their prior contents. -/
theorem C3_snapshot_and_trim (st : ConsumerState) (now : Nat)
    (h : ¬(st.customer_records = [] ∧ st.inventory_records = [])) :
    ((merge_and_send_data (HttpOutcome.status 200) now st).2.map MergedBatch.customers
        = [st.customer_records]) ∧
    ((merge_and_send_data (HttpOutcome.status 200) now st).2.map MergedBatch.inventory
        = [st.inventory_records]) ∧
    ((merge_and_send_data (HttpOutcome.status 200) now st).1.customer_records
        = if st.customer_records.length ≤ 100 then [] else lastN 100 st.customer_records) ∧
    ((merge_and_send_data (HttpOutcome.status 200) now st).1.inventory_records
        = if st.inventory_records.length ≤ 100 then [] else lastN 100 st.inventory_records) := by
  refine ⟨?_, ?_, ?_, ?_⟩
  · simp only [merge_and_send_data, if_neg h, reduceIte, List.map_cons, List.map_nil]
  · simp only [merge_and_send_data, if_neg h, reduceIte, List.map_cons, List.map_nil]
  · simp only [merge_and_send_data, if_neg h, reduceIte]
    rcases Nat.lt_or_ge 100 st.customer_records.length with hlen | hlen
    · rw [if_pos hlen, if_neg (by omega)]
    · rw [if_neg (by omega), if_pos (by omega)]
  · simp only [merge_and_send_data, if_neg h, reduceIte]
    rcases Nat.lt_or_ge 100 st.inventory_records.length with hlen | hlen
    · rw [if_pos hlen, if_neg (by omega)]
    · rw [if_neg (by omega), if_pos (by omega)]

/-- Witness for `C3_snapshot_and_trim` at the spec's 105-record example:
all 105 records go into the batch and the last 100 remain. -/
theorem C3_snapshot_and_trim_witness :
    ((merge_and_send_data (HttpOutcome.status 200) 0 state105).2.map MergedBatch.customers
        = [state105.customer_records]) ∧
    ((merge_and_send_data (HttpOutcome.status 200) 0 state105).1.customer_records
        = if state105.customer_records.length ≤ 100 then []
          else lastN 100 state105.customer_records) :=
  ⟨(C3_snapshot_and_trim state105 0 (by simp [state105])).1,
   (C3_snapshot_and_trim state105 0 (by simp [state105])).2.2.1⟩

/-! ### C4 -/

/-- C4 counterexample: the claim says `last_merge_time` is reset after
every flush attempt, including the unconditional startup flush; but the
startup flush at time 5 leaves `last_merge_time` at its construction
value 0. -/
theorem C4_startup_flush_no_reset :
    (run_startup (HttpOutcome.status 200) 5 oneActiveCustomer).1.last_merge_time
      ≠ 5 := by decide

/-- C4 (amended): a flush attempt made inside the consumer loop resets
`last_merge_time` to the current time whatever the dispatch outcome, but
the unconditional startup flush does not touch `last_merge_time`, which
keeps its construction-time value. -/
theorem C4_timer_reset (cfg : Config) (o : HttpOutcome) (now : Nat) (msg : Message)
    (st : ConsumerState)
    (h : should_merge_data now (handle_message cfg now msg st) = true) :
    (consume_step cfg o now msg st).1.last_merge_time = now ∧
    (run_startup o now st).1.last_merge_time = st.last_merge_time := by
  constructor
  · simp [consume_step, h]
  · exact merge_preserves_last_merge_time o now st

/-- Witness for `C4_timer_reset`: a customer message arriving at time 60
with the timer at 0 triggers a flush that resets the timer. -/
theorem C4_timer_reset_witness :
    (consume_step defaultConfig HttpOutcome.requestError 60
        { topic := "customer_data", value := [("id", Value.int 1)] }
        oneActiveCustomer).1.last_merge_time = 60 ∧
    (run_startup HttpOutcome.requestError 60 oneActiveCustomer).1.last_merge_time
        = oneActiveCustomer.last_merge_time :=
  C4_timer_reset defaultConfig HttpOutcome.requestError 60
    { topic := "customer_data", value := [("id", Value.int 1)] }
    oneActiveCustomer (by decide)

/-! ### C5 -/

/-- C5: a merge from a non-empty pair of buffers issues exactly one
POST, whose summary counts the snapshotted records (with
`active_customers` counting those whose `status` is `"active"`) and
whose `customers` and `inventory` fields are the full snapshotted
sequences in insertion order. -/
theorem C5_single_post_summary (st : ConsumerState) (o : HttpOutcome) (now : Nat)
    (h : ¬(st.customer_records = [] ∧ st.inventory_records = [])) :
    (merge_and_send_data o now st).2.length = 1 ∧
    ∀ b ∈ (merge_and_send_data o now st).2,
      b.summary.total_customers = st.customer_records.length ∧
      b.summary.total_products = st.inventory_records.length ∧
      b.summary.active_customers = st.customer_records.countP isActive ∧
      b.customers = st.customer_records ∧
      b.inventory = st.inventory_records := by
  unfold merge_and_send_data
  rw [if_neg h]
  constructor
  · split <;> rfl
  · split <;>
    · intro b hb
      simp only [List.mem_singleton] at hb
      subst hb
      exact ⟨rfl, rfl, (List.countP_eq_length_filter _ _).symm, rfl, rfl⟩

/-- Witness for `C5_single_post_summary`: one customer and one product
yield exactly one POST. -/
theorem C5_single_post_summary_witness :
    (merge_and_send_data (HttpOutcome.status 200) 1 oneOfEach).2.length = 1 :=
  (C5_single_post_summary oneOfEach (HttpOutcome.status 200) 1 (by decide)).1

/-! ### C6 -/

/-- C6: with both buffers empty, merge is a no-op: no POST is issued, no
error is raised, and the state — buffers included — is returned
unchanged. -/
theorem C6_empty_merge_noop (st : ConsumerState) (o : HttpOutcome) (now : Nat)
    (h1 : st.customer_records = []) (h2 : st.inventory_records = []) :
    merge_and_send_data o now st = (st, []) := by
  simp [merge_and_send_data, h1, h2]

/-- Witness for `C6_empty_merge_noop` on the empty state. -/
theorem C6_empty_merge_noop_witness :
    merge_and_send_data (HttpOutcome.status 200) 5
        { customer_records := [], inventory_records := [], last_merge_time := 0 }
      = ({ customer_records := [], inventory_records := [], last_merge_time := 0 }, []) :=
  C6_empty_merge_noop _ (HttpOutcome.status 200) 5 rfl rfl

/-! ### C7 -/

/-- C7: for every buffer state and every dispatch outcome (any status
code or a request exception), merge makes at most one dispatch attempt;
being a total function into a plain pair, it returns normally to its
caller in every case. -/
theorem C7_at_most_one_attempt (st : ConsumerState) (o : HttpOutcome) (now : Nat) :
    (merge_and_send_data o now st).2.length ≤ 1 := by
  unfold merge_and_send_data
  split
  · simp
  · split <;> simp

/-! ### C8 -/

/-- C8: every batch merge constructs satisfies
`active_customers ≤ total_customers`. -/
theorem C8_active_le_total (st : ConsumerState) (o : HttpOutcome) (now : Nat) :
    ∀ b ∈ (merge_and_send_data o now st).2,
      b.summary.active_customers ≤ b.summary.total_customers := by
  unfold merge_and_send_data
  split
  · simp
  · split <;>
    · intro b hb
      simp only [List.mem_singleton] at hb
      subst hb
      simpa using List.length_filter_le isActive st.customer_records

/-- Witness for `C8_active_le_total` on the concrete batch produced from
`oneActiveCustomer`. -/
theorem C8_active_le_total_witness :
    ({ timestamp := 2
       summary := { total_customers := 1, total_products := 0, active_customers := 1 }
       customers := [[("status", Value.str "active")]]
       inventory := [] } : MergedBatch).summary.active_customers ≤
    ({ timestamp := 2
       summary := { total_customers := 1, total_products := 0, active_customers := 1 }
       customers := [[("status", Value.str "active")]]
       inventory := [] } : MergedBatch).summary.total_customers :=
  C8_active_le_total oneActiveCustomer (HttpOutcome.status 200) 2 _ (by decide)

/-! ### C9 -/

/-- C9: an event whose topic is neither the configured customer topic
nor the configured inventory topic is silently ignored: the routing step
leaves the whole state — both buffers included — unchanged, and no error
is raised. -/
theorem C9_unrecognized_topic_ignored (cfg : Config) (now : Nat) (msg : Message)
    (st : ConsumerState)
    (h1 : msg.topic ≠ cfg.CUSTOMER_TOPIC) (h2 : msg.topic ≠ cfg.INVENTORY_TOPIC) :
    handle_message cfg now msg st = st := by
  simp [handle_message, h1, h2]

/-- Witness for `C9_unrecognized_topic_ignored` on an `orders` event. -/
theorem C9_unrecognized_topic_ignored_witness :
    handle_message defaultConfig 4 { topic := "orders", value := [] } oneOfEach
      = oneOfEach :=
  C9_unrecognized_topic_ignored defaultConfig 4 { topic := "orders", value := [] }
    oneOfEach (by decide) (by decide)

/-! ### C10 -/

/-- C10: every stored customer record has exactly the keys `id`, `name`,
`email`, `status`, `created_date`, `received_at`, and every stored
inventory record has exactly the keys `id`, `name`, `price`, `quantity`,
`category`, `received_at` (so any other payload key is dropped); a data
key absent from the payload is stored with a null value. -/
theorem C10_fixed_key_schema (payload : Record) (now : Nat) :
    keysOf (customerEntry now payload)
      = ["id", "name", "email", "status", "created_date", "received_at"] ∧
    keysOf (inventoryEntry now payload)
      = ["id", "name", "price", "quantity", "category", "received_at"] ∧
    (∀ k ∈ customerKeys, dget payload k = Value.null →
      dget (customerEntry now payload) k = Value.null) ∧
    (∀ k ∈ inventoryKeys, dget payload k = Value.null →
      dget (inventoryEntry now payload) k = Value.null) := by
  refine ⟨rfl, rfl, ?_, ?_⟩
  · intro k hk habs
    rw [← habs]
    exact customerEntry_dget_data payload now k hk
  · intro k hk habs
    rw [← habs]
    exact inventoryEntry_dget_data payload now k hk

/-- Witness for `C10_fixed_key_schema`: a payload holding only an
`extra` field is stored with the fixed customer key schema and a null
`name`. -/
theorem C10_fixed_key_schema_witness :
    keysOf (customerEntry 4 [("extra", Value.int 2)])
        = ["id", "name", "email", "status", "created_date", "received_at"] ∧
    dget (customerEntry 4 [("extra", Value.int 2)]) "name" = Value.null :=
  ⟨(C10_fixed_key_schema [("extra", Value.int 2)] 4).1,
   (C10_fixed_key_schema [("extra", Value.int 2)] 4).2.2.1 "name" (by decide) (by decide)⟩

end IntegrationConsumer
